import Mathlib

/-!
Verification of the bonding-curve pricing engine (Bancor, Linear, Exponential,
Logarithmic, Sigmoid variants) against its natural-language specification.

Modelling conventions
=====================

The source stores every monetary and supply quantity as an `I64F64` fixed-point
number (the `fixed` crate): 64 integer bits and 64 fractional bits.  We embed an
`I64F64` value by its raw representation, an integer `raw` denoting the real
value `raw / 2^64`:

* addition and subtraction of fixed-point values are exact, so they embed as
  integer addition and subtraction on raws;
* multiplication computes the full product and drops the extra 64 fraction
  bits (an arithmetic right shift), i.e. the raw result is
  `(a * b).fdiv (2^64)` (floor division);
* division computes `(a * 2^64).fdiv b`.

Raw values are carried as unbounded `Int`: the `fixed` crate's arithmetic
operators panic on overflow rather than returning, so every execution in which
an operation returns successfully agrees with this unbounded model.  Likewise
a fixed-point division by zero panics in the source while `Int.fdiv _ 0 = 0`
here; no theorem below about a successfully returning call depends on a
division by zero (the concrete states evaluated all divide by nonzero
values).

`f64` round-trips: the transcendental helpers convert a fixed-point value to
`f64`, call `libm`, and convert back.  The `libm` pipeline (conversion to
`f64`, the transcendental evaluation, the finiteness test, the conversion back
to fixed-point) is abstracted as a function parameter of type
`Int → Option Int` (or `Int → Int → Option Int` for `pow`), where `none` models a
non-finite (`!is_finite()`) result; the pipeline is a pure function of its
inputs, so any theorem quantified over the parameter covers the real `libm`.
The sign tests the source performs on the converted `f64` (`base_f64 < 0.0`,
`value_f64 <= 0.0`) are embedded as the same tests on the fixed-point value:
the `I64F64`-to-`f64` conversion rounds to nearest and its smallest nonzero
magnitude is `2^-64`, far above the `f64` underflow threshold, so the sign
(and being zero) is preserved exactly.

Constructor parameters arriving as `f64` are embedded by their exact `I64F64`
image (all concrete parameter values used below are dyadic rationals that
convert without rounding, so the range checks the source performs on the `f64`
coincide with the same checks on the image).  The `is_finite` constructor
checks are omitted: every `I64F64` image is finite.

Error values: the source's `BondingCurveError` carries a descriptive message
string; no claim depends on the text, so the embedding keeps only the two
constructors (invalid input / calculation error).

Mutation: a Rust method taking `&mut self` is embedded as a function
`State → ... → Except BondingCurveError Value × State` returning the result
together with the state after the call; early `return Err(...)` paths return
the unchanged input state, mirroring the fact that they execute before any
field assignment in the source.  Methods taking `&self` (`get_price`,
`get_supply`, `get_reserve`) are embedded as pure functions: a `&self`
receiver cannot mutate the instance.
-/

deriving instance DecidableEq for Except

namespace BondingCurves

/- An `I64F64` fixed-point value is embedded by its raw representation, a
plain `Int` denoting the real number `raw / 2^64`. -/

/-- The scaling factor `2^64` of `I64F64` (one unit in the last place is
`2^-64`). -/
def fpScale : Int := 18446744073709551616

/-- Embed an integer as a fixed-point value (`I64F64::from_num` on an
integer argument, which is exact). -/
def fpOfInt (n : Int) : Int := n * fpScale

/-- Fixed-point multiplication: full product, then the extra 64 fraction bits
are dropped (arithmetic shift right, i.e. floor division by `2^64`). -/
def fpMul (a b : Int) : Int := Int.fdiv (a * b) fpScale

/-- Fixed-point division: numerator widened by 64 fraction bits, then floor
division by the divisor (truncation of result bits). -/
def fpDiv (a b : Int) : Int := Int.fdiv (a * fpScale) b

/-- Error taxonomy of `errors.rs` (`BondingCurveError`); the descriptive
message strings are elided, keeping only the two kinds. -/
inductive BondingCurveError : Type where
  | invalidInput : BondingCurveError
  | calculationError : BondingCurveError
deriving DecidableEq

/-! ## Bancor (`bancor.rs`) -/

/-- State of the Bancor curve (`struct Bancor`). -/
structure Bancor : Type where
  reserve_balance : Int
  token_supply : Int
  connector_weight : Int
deriving DecidableEq

/-- Raw value of `I64F64::from_num(0.0001)`: the `f64` nearest `0.0001` is
`7378697629483821 * 2^-66`, whose conversion to 64 fractional bits gives raw
`7378697629483821 / 4` rounded to `1844674407370955`.  This is the magic
initial-price constant of `Bancor::buy_token` at zero supply. -/
def initialPriceConst : Int := 1844674407370955

/-- Constructor `Bancor::new(reserve_balance: i64, token_supply: i64,
connector_weight: f64)`; the weight is given by its exact `I64F64` image. -/
def Bancor.new (reserve_balance token_supply : Int) (connector_weight : Int) :
    Except BondingCurveError Bancor :=
  if connector_weight ≤ 0 ∨ fpOfInt 1 < connector_weight then
    .error .invalidInput
  else if token_supply = 0 ∧ reserve_balance ≠ 0 then
    .error .invalidInput
  else if reserve_balance = 0 ∧ token_supply ≠ 0 then
    .error .invalidInput
  else if reserve_balance < 0 ∨ token_supply < 0 then
    .error .invalidInput
  else
    .ok ⟨fpOfInt reserve_balance, fpOfInt token_supply, connector_weight⟩

/-- Method `Bancor::get_price` (`&self`): `0` at zero supply, otherwise
`reserve_balance / (token_supply * connector_weight)`. -/
def Bancor.get_price (b : Bancor) : Except BondingCurveError Int :=
  if b.token_supply = 0 then .ok 0
  else .ok (fpDiv b.reserve_balance (fpMul b.token_supply b.connector_weight))

/-- Method `Bancor::buy_token` (`&mut self`): validates the reserve amount,
reads the spot price, rejects a zero price at nonzero supply, then issues
`reserve_amount / 0.0001` tokens at zero supply and `reserve_amount / price`
otherwise, crediting the reserve and the supply. -/
def Bancor.buy_token (b : Bancor) (reserve_amount : Int) :
    Except BondingCurveError Int × Bancor :=
  if reserve_amount ≤ 0 then (.error .invalidInput, b)
  else
    match b.get_price with
    | .error e => (.error e, b)
    | .ok price =>
      if price = 0 ∧ b.token_supply ≠ 0 then (.error .calculationError, b)
      else
        let tokens_issued :=
          if b.token_supply = 0 then fpDiv reserve_amount initialPriceConst
          else fpDiv reserve_amount price
        (.ok tokens_issued,
          { b with
            reserve_balance := b.reserve_balance + reserve_amount,
            token_supply := b.token_supply + tokens_issued })

/-- Method `Bancor::sell_token` (`&mut self`): validates the token amount
against the supply, reads the spot price, pays `token_amount * price` out of
the reserve and burns the tokens. -/
def Bancor.sell_token (b : Bancor) (token_amount : Int) :
    Except BondingCurveError Int × Bancor :=
  if token_amount ≤ 0 ∨ b.token_supply < token_amount then
    (.error .invalidInput, b)
  else
    match b.get_price with
    | .error e => (.error e, b)
    | .ok price =>
      let reserve_received := fpMul token_amount price
      (.ok reserve_received,
        { b with
          token_supply := b.token_supply - token_amount,
          reserve_balance := b.reserve_balance - reserve_received })

/-- Method `Bancor::get_supply` (`&self`). -/
def Bancor.get_supply (b : Bancor) : Int := b.token_supply

/-- Method `Bancor::get_reserve` (`&self`). -/
def Bancor.get_reserve (b : Bancor) : Option Int := some b.reserve_balance

/-! ## Linear (`linear.rs`) -/

/-- State of the linear curve (`struct Linear`). -/
structure Linear : Type where
  slope : Int
  token_supply : Int
deriving DecidableEq

/-- Constructor `Linear::new(slope: f64)`; the slope is given by its exact
`I64F64` image. -/
def Linear.new (slope : Int) : Except BondingCurveError Linear :=
  if slope ≤ 0 then .error .invalidInput
  else .ok ⟨slope, 0⟩

/-- Method `Linear::get_price` (`&self`): `slope * token_supply`. -/
def Linear.get_price (l : Linear) : Except BondingCurveError Int :=
  .ok (fpMul l.slope l.token_supply)

/-- Method `Linear::buy_token` (`&mut self`): cost
`k*(S+d)^2/2 - k*S^2/2` evaluated operation by operation in fixed point. -/
def Linear.buy_token (l : Linear) (token_amount : Int) :
    Except BondingCurveError Int × Linear :=
  if token_amount ≤ 0 then (.error .invalidInput, l)
  else
    let new_supply := l.token_supply + token_amount
    let cost :=
      fpDiv (fpMul l.slope (fpMul new_supply new_supply)) (fpOfInt 2)
        - fpDiv (fpMul l.slope (fpMul l.token_supply l.token_supply)) (fpOfInt 2)
    (.ok cost, { l with token_supply := new_supply })

/-- Method `Linear::sell_token` (`&mut self`): refund
`k*S^2/2 - k*(S-d)^2/2` evaluated operation by operation in fixed point. -/
def Linear.sell_token (l : Linear) (token_amount : Int) :
    Except BondingCurveError Int × Linear :=
  if token_amount ≤ 0 ∨ l.token_supply < token_amount then
    (.error .invalidInput, l)
  else
    let new_supply := l.token_supply - token_amount
    let refund :=
      fpDiv (fpMul l.slope (fpMul l.token_supply l.token_supply)) (fpOfInt 2)
        - fpDiv (fpMul l.slope (fpMul new_supply new_supply)) (fpOfInt 2)
    (.ok refund, { l with token_supply := new_supply })

/-- Method `Linear::get_supply` (`&self`). -/
def Linear.get_supply (l : Linear) : Int := l.token_supply

/-- Method `Linear::get_reserve` (`&self`): no reserve is tracked. -/
def Linear.get_reserve (_l : Linear) : Option Int := none

/-! ## Exponential (`exponential.rs`)

The curve's operations evaluate powers via the inherent helper
`Exponential::pow_fixed`, which converts to `f64`, rejects any negative base,
calls `libm::pow`, and rejects a non-finite result.  The `libm` pipeline is
abstracted as the parameter `powImpl` (see the header comment). -/

/-- State of the exponential curve (`struct Exponential`). -/
structure Exponential : Type where
  coefficient : Int
  exponent : Int
  token_supply : Int
deriving DecidableEq

/-- Constructor `Exponential::new(coefficient: f64, exponent: f64)`; the
parameters are given by their exact `I64F64` images. -/
def Exponential.new (coefficient exponent : Int) :
    Except BondingCurveError Exponential :=
  if coefficient ≤ 0 ∨ exponent ≤ 0 then .error .invalidInput
  else .ok ⟨coefficient, exponent, 0⟩

/-- Inherent helper `Exponential::pow_fixed`: rejects any negative base
(its guard is `base_f64 < 0.0`, with no integrality test on the exponent,
unlike the unused `helpers.rs` version), then evaluates the abstracted
`libm::pow` pipeline and rejects a non-finite (`none`) result. -/
def Exponential.pow_fixed (powImpl : Int → Int → Option Int) (base exponent : Int) :
    Except BondingCurveError Int :=
  if base < 0 then .error .calculationError
  else
    match powImpl base exponent with
    | none => .error .calculationError
    | some r => .ok r

/-- Method `Exponential::get_price` (`&self`): `coefficient * S^exponent`. -/
def Exponential.get_price (powImpl : Int → Int → Option Int) (e : Exponential) :
    Except BondingCurveError Int :=
  match Exponential.pow_fixed powImpl e.token_supply e.exponent with
  | .error er => .error er
  | .ok power_result => .ok (fpMul e.coefficient power_result)

/-- Method `Exponential::buy_token` (`&mut self`): cost
`(c/(n+1))*(S+d)^(n+1) - (c/(n+1))*S^(n+1)`, powers evaluated before the
supply is updated. -/
def Exponential.buy_token (powImpl : Int → Int → Option Int) (e : Exponential)
    (token_amount : Int) : Except BondingCurveError Int × Exponential :=
  if token_amount ≤ 0 then (.error .invalidInput, e)
  else
    let n_plus_one := e.exponent + fpOfInt 1
    match Exponential.pow_fixed powImpl (e.token_supply + token_amount) n_plus_one with
    | .error er => (.error er, e)
    | .ok new_supply_power =>
      match Exponential.pow_fixed powImpl e.token_supply n_plus_one with
      | .error er => (.error er, e)
      | .ok current_supply_power =>
        let cost :=
          fpMul (fpDiv e.coefficient n_plus_one) new_supply_power
            - fpMul (fpDiv e.coefficient n_plus_one) current_supply_power
        (.ok cost, { e with token_supply := e.token_supply + token_amount })

/-- Method `Exponential::sell_token` (`&mut self`): refund
`(c/(n+1))*S^(n+1) - (c/(n+1))*(S-d)^(n+1)`, powers evaluated before the
supply is updated. -/
def Exponential.sell_token (powImpl : Int → Int → Option Int) (e : Exponential)
    (token_amount : Int) : Except BondingCurveError Int × Exponential :=
  if token_amount ≤ 0 ∨ e.token_supply < token_amount then
    (.error .invalidInput, e)
  else
    let n_plus_one := e.exponent + fpOfInt 1
    match Exponential.pow_fixed powImpl e.token_supply n_plus_one with
    | .error er => (.error er, e)
    | .ok current_supply_power =>
      match Exponential.pow_fixed powImpl (e.token_supply - token_amount) n_plus_one with
      | .error er => (.error er, e)
      | .ok new_supply_power =>
        let refund :=
          fpMul (fpDiv e.coefficient n_plus_one) current_supply_power
            - fpMul (fpDiv e.coefficient n_plus_one) new_supply_power
        (.ok refund, { e with token_supply := e.token_supply - token_amount })

/-- Method `Exponential::get_supply` (`&self`). -/
def Exponential.get_supply (e : Exponential) : Int := e.token_supply

/-- Method `Exponential::get_reserve` (`&self`): no reserve is tracked. -/
def Exponential.get_reserve (_e : Exponential) : Option Int := none

/-! ## Logarithmic (`logarithmic.rs`) -/

/-- State of the logarithmic curve (`struct Logarithmic`). -/
structure Logarithmic : Type where
  coefficient : Int
  constant : Int
  token_supply : Int
deriving DecidableEq

/-- Constructor `Logarithmic::new(coefficient: f64, constant: f64)`; the
parameters are given by their exact `I64F64` images. -/
def Logarithmic.new (coefficient constant : Int) :
    Except BondingCurveError Logarithmic :=
  if coefficient ≤ 0 ∨ constant ≤ 0 then .error .invalidInput
  else .ok ⟨coefficient, constant, 0⟩

/-- Inherent helper `Logarithmic::ln_fixed`: rejects a non-positive argument,
then evaluates the abstracted `libm::log` pipeline and rejects a non-finite
(`none`) result. -/
def Logarithmic.ln_fixed (lnImpl : Int → Option Int) (value : Int) :
    Except BondingCurveError Int :=
  if value ≤ 0 then .error .calculationError
  else
    match lnImpl value with
    | none => .error .calculationError
    | some r => .ok r

/-- Method `Logarithmic::get_price` (`&self`): `coefficient * ln(S + k)` with
an explicit domain test on `S + k` before the logarithm. -/
def Logarithmic.get_price (lnImpl : Int → Option Int) (lg : Logarithmic) :
    Except BondingCurveError Int :=
  let supply_plus_const := lg.token_supply + lg.constant
  if supply_plus_const ≤ 0 then .error .calculationError
  else
    match Logarithmic.ln_fixed lnImpl supply_plus_const with
    | .error er => .error er
    | .ok ln_result => .ok (fpMul lg.coefficient ln_result)

/-- Method `Logarithmic::buy_token` (`&mut self`): cost is the difference of
the antiderivative `c*(x*ln x - x)` at `x = S+d+k` and `x = S+k`, logarithms
evaluated before the supply is updated. -/
def Logarithmic.buy_token (lnImpl : Int → Option Int) (lg : Logarithmic)
    (token_amount : Int) : Except BondingCurveError Int × Logarithmic :=
  if token_amount ≤ 0 then (.error .invalidInput, lg)
  else
    let s_new := lg.token_supply + token_amount + lg.constant
    let s_old := lg.token_supply + lg.constant
    match Logarithmic.ln_fixed lnImpl s_new with
    | .error er => (.error er, lg)
    | .ok ln_s_new =>
      match Logarithmic.ln_fixed lnImpl s_old with
      | .error er => (.error er, lg)
      | .ok ln_s_old =>
        let cost :=
          fpMul lg.coefficient (fpMul s_new ln_s_new - s_new)
            - fpMul lg.coefficient (fpMul s_old ln_s_old - s_old)
        (.ok cost, { lg with token_supply := lg.token_supply + token_amount })

/-- Method `Logarithmic::sell_token` (`&mut self`): validates the amount, then
rejects the sale with a calculation error when `S - d + k ≤ 0`, otherwise the
refund is the difference of the antiderivative at `x = S+k` and `x = S-d+k`,
logarithms evaluated before the supply is updated. -/
def Logarithmic.sell_token (lnImpl : Int → Option Int) (lg : Logarithmic)
    (token_amount : Int) : Except BondingCurveError Int × Logarithmic :=
  if token_amount ≤ 0 ∨ lg.token_supply < token_amount then
    (.error .invalidInput, lg)
  else
    let s_old := lg.token_supply + lg.constant
    let s_new := lg.token_supply - token_amount + lg.constant
    if s_new ≤ 0 then (.error .calculationError, lg)
    else
      match Logarithmic.ln_fixed lnImpl s_old with
      | .error er => (.error er, lg)
      | .ok ln_s_old =>
        match Logarithmic.ln_fixed lnImpl s_new with
        | .error er => (.error er, lg)
        | .ok ln_s_new =>
          let refund :=
            fpMul lg.coefficient (fpMul s_old ln_s_old - s_old)
              - fpMul lg.coefficient (fpMul s_new ln_s_new - s_new)
          (.ok refund, { lg with token_supply := lg.token_supply - token_amount })

/-- Method `Logarithmic::get_supply` (`&self`). -/
def Logarithmic.get_supply (lg : Logarithmic) : Int := lg.token_supply

/-- Method `Logarithmic::get_reserve` (`&self`): no reserve is tracked. -/
def Logarithmic.get_reserve (_lg : Logarithmic) : Option Int := none

/-! ## Sigmoid (`sigmoid.rs`) -/

/-- State of the sigmoid curve (`struct Sigmoid`). -/
structure Sigmoid : Type where
  max_price : Int
  steepness : Int
  midpoint : Int
  token_supply : Int
deriving DecidableEq

/-- Constructor `Sigmoid::new(max_price: f64, steepness: f64, midpoint: f64)`;
the parameters are given by their exact `I64F64` images. -/
def Sigmoid.new (max_price steepness midpoint : Int) :
    Except BondingCurveError Sigmoid :=
  if max_price ≤ 0 ∨ steepness ≤ 0 ∨ midpoint < 0 then .error .invalidInput
  else .ok ⟨max_price, steepness, midpoint, 0⟩

/-- Inherent helper `Sigmoid::exp_fixed`: evaluates the abstracted `libm::exp`
pipeline and rejects a non-finite (`none`) result. -/
def Sigmoid.exp_fixed (expImpl : Int → Option Int) (value : Int) :
    Except BondingCurveError Int :=
  match expImpl value with
  | none => .error .calculationError
  | some r => .ok r

/-- Inherent helper `Sigmoid::ln_fixed`: identical to the logarithmic curve's
helper. -/
def Sigmoid.ln_fixed (lnImpl : Int → Option Int) (value : Int) :
    Except BondingCurveError Int :=
  if value ≤ 0 then .error .calculationError
  else
    match lnImpl value with
    | none => .error .calculationError
    | some r => .ok r

/-- Method `Sigmoid::get_price` (`&self`):
`max_price / (1 + exp(-steepness * (S - midpoint)))`. -/
def Sigmoid.get_price (expImpl : Int → Option Int) (sg : Sigmoid) :
    Except BondingCurveError Int :=
  let exponent := fpMul (-sg.steepness) (sg.token_supply - sg.midpoint)
  match Sigmoid.exp_fixed expImpl exponent with
  | .error er => .error er
  | .ok exp_result =>
    let denominator := fpOfInt 1 + exp_result
    .ok (fpDiv sg.max_price denominator)

/-- Method `Sigmoid::buy_token` (`&mut self`): cost is the difference of the
antiderivative `(M/k)*ln(1 + exp(k*(S-m)))` at the new and old supply, all
transcendentals evaluated before the supply is updated. -/
def Sigmoid.buy_token (expImpl lnImpl : Int → Option Int) (sg : Sigmoid)
    (token_amount : Int) : Except BondingCurveError Int × Sigmoid :=
  if token_amount ≤ 0 then (.error .invalidInput, sg)
  else
    let k := sg.steepness
    let s_new := sg.token_supply + token_amount - sg.midpoint
    let s_old := sg.token_supply - sg.midpoint
    match Sigmoid.exp_fixed expImpl (fpMul k s_new) with
    | .error er => (.error er, sg)
    | .ok exp_k_s_new =>
      match Sigmoid.exp_fixed expImpl (fpMul k s_old) with
      | .error er => (.error er, sg)
      | .ok exp_k_s_old =>
        match Sigmoid.ln_fixed lnImpl (fpOfInt 1 + exp_k_s_new) with
        | .error er => (.error er, sg)
        | .ok ln_term_new =>
          match Sigmoid.ln_fixed lnImpl (fpOfInt 1 + exp_k_s_old) with
          | .error er => (.error er, sg)
          | .ok ln_term_old =>
            let cost :=
              fpMul (fpDiv sg.max_price k) ln_term_new
                - fpMul (fpDiv sg.max_price k) ln_term_old
            (.ok cost, { sg with token_supply := sg.token_supply + token_amount })

/-- Method `Sigmoid::sell_token` (`&mut self`): refund is the difference of
the antiderivative at the old and new supply, all transcendentals evaluated
before the supply is updated. -/
def Sigmoid.sell_token (expImpl lnImpl : Int → Option Int) (sg : Sigmoid)
    (token_amount : Int) : Except BondingCurveError Int × Sigmoid :=
  if token_amount ≤ 0 ∨ sg.token_supply < token_amount then
    (.error .invalidInput, sg)
  else
    let k := sg.steepness
    let s_old := sg.token_supply - sg.midpoint
    let s_new := sg.token_supply - token_amount - sg.midpoint
    match Sigmoid.exp_fixed expImpl (fpMul k s_old) with
    | .error er => (.error er, sg)
    | .ok exp_k_s_old =>
      match Sigmoid.exp_fixed expImpl (fpMul k s_new) with
      | .error er => (.error er, sg)
      | .ok exp_k_s_new =>
        match Sigmoid.ln_fixed lnImpl (fpOfInt 1 + exp_k_s_old) with
        | .error er => (.error er, sg)
        | .ok ln_term_old =>
          match Sigmoid.ln_fixed lnImpl (fpOfInt 1 + exp_k_s_new) with
          | .error er => (.error er, sg)
          | .ok ln_term_new =>
            let refund :=
              fpMul (fpDiv sg.max_price k) ln_term_old
                - fpMul (fpDiv sg.max_price k) ln_term_new
            (.ok refund, { sg with token_supply := sg.token_supply - token_amount })

/-- Method `Sigmoid::get_supply` (`&self`). -/
def Sigmoid.get_supply (sg : Sigmoid) : Int := sg.token_supply

/-- Method `Sigmoid::get_reserve` (`&self`): no reserve is tracked. -/
def Sigmoid.get_reserve (_sg : Sigmoid) : Option Int := none


/-! ## Helper lemmas -/

theorem fpScale_pos : (0 : Int) < fpScale := by norm_num [fpScale]

theorem fpMul_nonneg {a b : Int} (ha : 0 <= a) (hb : 0 <= b) : 0 <= fpMul a b :=
  Int.fdiv_nonneg (mul_nonneg ha hb) fpScale_pos.le

theorem fpDiv_nonneg {a b : Int} (ha : 0 <= a) (hb : 0 <= b) : 0 <= fpDiv a b :=
  Int.fdiv_nonneg (mul_nonneg ha fpScale_pos.le) hb

theorem fpDiv_pos {a b : Int} (hb : 0 < b) (h : b <= a * fpScale) : 0 < fpDiv a b := by
  unfold fpDiv
  rw [Int.fdiv_eq_ediv _ hb.le]
  exact lt_of_lt_of_le zero_lt_one ((Int.le_ediv_iff_mul_le hb).mpr (by linarith))

/-- Spot price value of the Bancor curve; `Bancor.get_price` always succeeds
and returns this value. -/
def Bancor.priceVal (b : Bancor) : Int :=
  if b.token_supply = 0 then 0
  else fpDiv b.reserve_balance (fpMul b.token_supply b.connector_weight)

theorem Bancor.get_price_eq (b : Bancor) : b.get_price = .ok b.priceVal := by
  by_cases hc : b.token_supply = 0 <;> simp [Bancor.get_price, Bancor.priceVal, hc]

theorem bancor_buy_token_ok {b : Bancor} {d t : Int} {b' : Bancor}
    (h : b.buy_token d = (.ok t, b')) :
    0 < d ∧ ¬(b.priceVal = 0 ∧ b.token_supply ≠ 0) ∧
      t = (if b.token_supply = 0 then fpDiv d initialPriceConst else fpDiv d b.priceVal) ∧
      b' = ⟨b.reserve_balance + d, b.token_supply + t, b.connector_weight⟩ := by
  unfold Bancor.buy_token at h
  rw [Bancor.get_price_eq] at h
  dsimp only at h
  split at h
  · exact absurd h (by simp)
  · split at h
    · exact absurd h (by simp)
    · rw [Prod.mk.injEq] at h
      obtain ⟨h1, h2⟩ := h
      injection h1 with h1
      subst h1
      refine ⟨by linarith, by assumption, rfl, ?_⟩
      obtain ⟨R, S, W⟩ := b
      simpa using h2.symm

theorem bancor_sell_token_ok {b : Bancor} {a r : Int} {b' : Bancor}
    (h : b.sell_token a = (.ok r, b')) :
    0 < a ∧ a <= b.token_supply ∧ r = fpMul a b.priceVal ∧
      b' = ⟨b.reserve_balance - r, b.token_supply - a, b.connector_weight⟩ := by
  unfold Bancor.sell_token at h
  rw [Bancor.get_price_eq] at h
  dsimp only at h
  split at h
  · exact absurd h (by simp)
  · rw [Prod.mk.injEq] at h
    obtain ⟨h1, h2⟩ := h
    injection h1 with h1
    subst h1
    refine ⟨by omega, by omega, rfl, ?_⟩
    obtain ⟨R, S, W⟩ := b
    simpa using h2.symm

/-- The Bancor state invariant claimed by the spec, together with the
constructor-guaranteed positivity of the connector weight. -/
def Bancor.Inv (b : Bancor) : Prop :=
  0 < b.connector_weight ∧ 0 <= b.reserve_balance ∧ 0 <= b.token_supply ∧
    (b.token_supply = 0 ↔ b.reserve_balance = 0)

theorem bancor_new_inv (x y : Int) (w : Int) (b : Bancor)
    (hnew : Bancor.new x y w = .ok b) : b.Inv := by
  unfold Bancor.new at hnew
  split at hnew
  · exact absurd hnew (by simp)
  · split at hnew
    · exact absurd hnew (by simp)
    · split at hnew
      · exact absurd hnew (by simp)
      · split at hnew
        · exact absurd hnew (by simp)
        · injection hnew with hb
          subst hb
          rename_i h1 h2 h3 h4
          have hsc := fpScale_pos
          have hx : 0 <= x := by omega
          have hy : 0 <= y := by omega
          have hw : 0 < w := by
            have : ¬(w <= 0) := fun hw0 => h1 (Or.inl hw0)
            omega
          refine ⟨hw, mul_nonneg hx hsc.le, mul_nonneg hy hsc.le, ?_⟩
          show y * fpScale = 0 ↔ x * fpScale = 0
          constructor
          · intro hz
            have hy0 : y = 0 := by
              rcases mul_eq_zero.mp hz with h | h
              · exact h
              · omega
            have hx0 : x = 0 := by
              by_contra hx0
              exact h2 ⟨hy0, hx0⟩
            rw [hx0, zero_mul]
          · intro hz
            have hx0 : x = 0 := by
              rcases mul_eq_zero.mp hz with h | h
              · exact h
              · omega
            have hy0 : y = 0 := by
              by_contra hy0
              exact h3 ⟨hx0, hy0⟩
            rw [hy0, zero_mul]

theorem bancor_buy_inv {b : Bancor} {d t : Int} {b' : Bancor}
    (hInv : b.Inv) (h : b.buy_token d = (.ok t, b')) : b'.Inv := by
  obtain ⟨hw, hR, hS, hIff⟩ := hInv
  obtain ⟨hd, hguard, ht, hb'⟩ := bancor_buy_token_ok h
  subst hb'
  by_cases hs : b.token_supply = 0
  · have hR0 : b.reserve_balance = 0 := hIff.mp hs
    rw [if_pos hs] at ht
    have htpos : 0 < t := by
      rw [ht]
      apply fpDiv_pos (by norm_num [initialPriceConst])
      have hds : fpScale <= d * fpScale := le_mul_of_one_le_left fpScale_pos.le (by omega)
      have hic : initialPriceConst <= fpScale := by norm_num [initialPriceConst, fpScale]
      linarith
    refine ⟨hw, ?_, ?_, ?_⟩
    · show 0 <= b.reserve_balance + d
      omega
    · show 0 <= b.token_supply + t
      omega
    · show b.token_supply + t = 0 ↔ b.reserve_balance + d = 0
      rw [hs, hR0]
      constructor <;> intro hz <;> omega
  · have hp0 : b.priceVal ≠ 0 := fun hp => hguard ⟨hp, hs⟩
    have hpnn : 0 <= b.priceVal := by
      unfold Bancor.priceVal
      rw [if_neg hs]
      exact fpDiv_nonneg hR (fpMul_nonneg hS hw.le)
    rw [if_neg hs] at ht
    have htnn : 0 <= t := ht ▸ fpDiv_nonneg hd.le (by
      unfold Bancor.priceVal at hpnn ⊢
      rw [if_neg hs] at hpnn ⊢
      exact hpnn)
    have hSpos : 0 < b.token_supply := lt_of_le_of_ne hS (Ne.symm hs)
    refine ⟨hw, ?_, ?_, ?_⟩
    · show 0 <= b.reserve_balance + d
      omega
    · show 0 <= b.token_supply + t
      omega
    · show b.token_supply + t = 0 ↔ b.reserve_balance + d = 0
      constructor <;> intro hz <;> omega

theorem bancor_sell_supply_nonneg {b : Bancor} {a r : Int} {b' : Bancor}
    (hInv : b.Inv) (h : b.sell_token a = (.ok r, b')) : 0 <= b'.token_supply := by
  obtain ⟨hw, hR, hS, hIff⟩ := hInv
  obtain ⟨ha, hle, hr, hb'⟩ := bancor_sell_token_ok h
  subst hb'
  show 0 <= b.token_supply - a
  omega


/-! ## C1: Bancor invariants -/

/-- C1 counterexample: from the valid constructed instance
`Bancor::new(1000, 10000, 0.25)` (weight raw `2^62`), selling the entire
supply succeeds, yet it leaves `reserve_balance < 0` while `token_supply = 0`:
both `reserve_balance >= 0` and the equivalence
`token_supply == 0 <-> reserve_balance == 0` fail after a successful
`sell_token`. -/
theorem bancor_invariants_counterexample :
    Bancor.new 1000 10000 4611686018427387904
      = .ok ⟨fpOfInt 1000, fpOfInt 10000, 4611686018427387904⟩ ∧
    (Bancor.sell_token ⟨fpOfInt 1000, fpOfInt 10000, 4611686018427387904⟩
        (fpOfInt 10000)).1.isOk = true ∧
    (Bancor.sell_token ⟨fpOfInt 1000, fpOfInt 10000, 4611686018427387904⟩
        (fpOfInt 10000)).2.token_supply = 0 ∧
    (Bancor.sell_token ⟨fpOfInt 1000, fpOfInt 10000, 4611686018427387904⟩
        (fpOfInt 10000)).2.reserve_balance < 0 :=
  ⟨by decide, by decide, by decide, by decide⟩

/-- C1 (amended): the Bancor invariant — nonnegative reserve and supply,
positive connector weight, and `token_supply == 0 <-> reserve_balance == 0` —
holds for every successfully constructed instance and is preserved by every
successful `buy_token`; a successful `sell_token` preserves
`token_supply >= 0`, but (see the counterexample) not the reserve
invariants. -/
theorem bancor_invariants_amended :
    (∀ x y w b, Bancor.new x y w = .ok b → b.Inv) ∧
    (∀ b d t b', Bancor.Inv b → Bancor.buy_token b d = (.ok t, b') → b'.Inv) ∧
    (∀ b a r b', Bancor.Inv b → Bancor.sell_token b a = (.ok r, b') →
      0 <= b'.token_supply) :=
  ⟨fun x y w b h => bancor_new_inv x y w b h,
   fun _ _ _ _ hI h => bancor_buy_inv hI h,
   fun _ _ _ _ hI h => bancor_sell_supply_nonneg hI h⟩

/-- Witness for C1: the amended invariant theorem applied to the concrete
instance with reserve 1, supply 1, weight 1 and a buy of 1. -/
theorem bancor_invariants_amended_witness :
    Bancor.Inv ⟨fpOfInt 1, fpOfInt 1, fpOfInt 1⟩ ∧
    Bancor.buy_token ⟨fpOfInt 1, fpOfInt 1, fpOfInt 1⟩ (fpOfInt 1)
      = (.ok (fpOfInt 1), ⟨fpOfInt 2, fpOfInt 2, fpOfInt 1⟩) ∧
    Bancor.Inv ⟨fpOfInt 2, fpOfInt 2, fpOfInt 1⟩ :=
  ⟨by unfold Bancor.Inv; decide, by decide,
    bancor_invariants_amended.2.1 ⟨fpOfInt 1, fpOfInt 1, fpOfInt 1⟩ (fpOfInt 1)
      (fpOfInt 1) ⟨fpOfInt 2, fpOfInt 2, fpOfInt 1⟩
      (by unfold Bancor.Inv; decide) (by decide)⟩


/-! ## C2: failed calls leave the state unchanged -/

theorem not_isOk_of_eq_error {E A : Type} {x : Except E A} {e : E}
    (h : x = .error e) : ¬(x.isOk = true) := by
  subst h
  intro hk
  exact Bool.noConfusion hk

theorem bancor_buy_token_state (b : Bancor) (d : Int) :
    (Bancor.buy_token b d).2 = b ∨ ((Bancor.buy_token b d).1).isOk = true := by
  unfold Bancor.buy_token
  rw [Bancor.get_price_eq]
  dsimp only
  split
  · exact Or.inl rfl
  · split
    · exact Or.inl rfl
    · exact Or.inr rfl

theorem bancor_sell_token_state (b : Bancor) (a : Int) :
    (Bancor.sell_token b a).2 = b ∨ ((Bancor.sell_token b a).1).isOk = true := by
  unfold Bancor.sell_token
  rw [Bancor.get_price_eq]
  dsimp only
  split
  · exact Or.inl rfl
  · exact Or.inr rfl

theorem linear_buy_token_state (l : Linear) (d : Int) :
    (Linear.buy_token l d).2 = l ∨ ((Linear.buy_token l d).1).isOk = true := by
  unfold Linear.buy_token
  split
  · exact Or.inl rfl
  · exact Or.inr rfl

theorem linear_sell_token_state (l : Linear) (a : Int) :
    (Linear.sell_token l a).2 = l ∨ ((Linear.sell_token l a).1).isOk = true := by
  unfold Linear.sell_token
  split
  · exact Or.inl rfl
  · exact Or.inr rfl

theorem exponential_buy_token_state (f : Int → Int → Option Int)
    (e : Exponential) (d : Int) :
    (Exponential.buy_token f e d).2 = e ∨
      ((Exponential.buy_token f e d).1).isOk = true := by
  unfold Exponential.buy_token
  dsimp only
  split
  · exact Or.inl rfl
  · split
    · exact Or.inl rfl
    · split
      · exact Or.inl rfl
      · exact Or.inr rfl

theorem exponential_sell_token_state (f : Int → Int → Option Int)
    (e : Exponential) (a : Int) :
    (Exponential.sell_token f e a).2 = e ∨
      ((Exponential.sell_token f e a).1).isOk = true := by
  unfold Exponential.sell_token
  dsimp only
  split
  · exact Or.inl rfl
  · split
    · exact Or.inl rfl
    · split
      · exact Or.inl rfl
      · exact Or.inr rfl

theorem logarithmic_buy_token_state (g : Int → Option Int)
    (lg : Logarithmic) (d : Int) :
    (Logarithmic.buy_token g lg d).2 = lg ∨
      ((Logarithmic.buy_token g lg d).1).isOk = true := by
  unfold Logarithmic.buy_token
  dsimp only
  split
  · exact Or.inl rfl
  · split
    · exact Or.inl rfl
    · split
      · exact Or.inl rfl
      · exact Or.inr rfl

theorem logarithmic_sell_token_state (g : Int → Option Int)
    (lg : Logarithmic) (a : Int) :
    (Logarithmic.sell_token g lg a).2 = lg ∨
      ((Logarithmic.sell_token g lg a).1).isOk = true := by
  unfold Logarithmic.sell_token
  dsimp only
  split
  · exact Or.inl rfl
  · split
    · exact Or.inl rfl
    · split
      · exact Or.inl rfl
      · split
        · exact Or.inl rfl
        · exact Or.inr rfl

theorem sigmoid_buy_token_state (fe fl : Int → Option Int)
    (sg : Sigmoid) (d : Int) :
    (Sigmoid.buy_token fe fl sg d).2 = sg ∨
      ((Sigmoid.buy_token fe fl sg d).1).isOk = true := by
  unfold Sigmoid.buy_token
  dsimp only
  split
  · exact Or.inl rfl
  · split
    · exact Or.inl rfl
    · split
      · exact Or.inl rfl
      · split
        · exact Or.inl rfl
        · split
          · exact Or.inl rfl
          · exact Or.inr rfl

theorem sigmoid_sell_token_state (fe fl : Int → Option Int)
    (sg : Sigmoid) (a : Int) :
    (Sigmoid.sell_token fe fl sg a).2 = sg ∨
      ((Sigmoid.sell_token fe fl sg a).1).isOk = true := by
  unfold Sigmoid.sell_token
  dsimp only
  split
  · exact Or.inl rfl
  · split
    · exact Or.inl rfl
    · split
      · exact Or.inl rfl
      · split
        · exact Or.inl rfl
        · split
          · exact Or.inl rfl
          · exact Or.inr rfl

/-- C2: for every variant, whenever `buy_token` or `sell_token` returns an
error, the state returned is exactly the state before the call: every field
is unchanged, because every validation and intermediate computation precedes
the first field write in the source. -/
theorem error_leaves_state_unchanged :
    (∀ b d e, (Bancor.buy_token b d).1 = .error e → (Bancor.buy_token b d).2 = b) ∧
    (∀ b a e, (Bancor.sell_token b a).1 = .error e → (Bancor.sell_token b a).2 = b) ∧
    (∀ l d e, (Linear.buy_token l d).1 = .error e → (Linear.buy_token l d).2 = l) ∧
    (∀ l a e, (Linear.sell_token l a).1 = .error e → (Linear.sell_token l a).2 = l) ∧
    (∀ f ex d e, (Exponential.buy_token f ex d).1 = .error e →
      (Exponential.buy_token f ex d).2 = ex) ∧
    (∀ f ex a e, (Exponential.sell_token f ex a).1 = .error e →
      (Exponential.sell_token f ex a).2 = ex) ∧
    (∀ g lg d e, (Logarithmic.buy_token g lg d).1 = .error e →
      (Logarithmic.buy_token g lg d).2 = lg) ∧
    (∀ g lg a e, (Logarithmic.sell_token g lg a).1 = .error e →
      (Logarithmic.sell_token g lg a).2 = lg) ∧
    (∀ fe fl sg d e, (Sigmoid.buy_token fe fl sg d).1 = .error e →
      (Sigmoid.buy_token fe fl sg d).2 = sg) ∧
    (∀ fe fl sg a e, (Sigmoid.sell_token fe fl sg a).1 = .error e →
      (Sigmoid.sell_token fe fl sg a).2 = sg) :=
  ⟨fun b d _ h => (bancor_buy_token_state b d).resolve_right (not_isOk_of_eq_error h),
   fun b a _ h => (bancor_sell_token_state b a).resolve_right (not_isOk_of_eq_error h),
   fun l d _ h => (linear_buy_token_state l d).resolve_right (not_isOk_of_eq_error h),
   fun l a _ h => (linear_sell_token_state l a).resolve_right (not_isOk_of_eq_error h),
   fun f ex d _ h =>
     (exponential_buy_token_state f ex d).resolve_right (not_isOk_of_eq_error h),
   fun f ex a _ h =>
     (exponential_sell_token_state f ex a).resolve_right (not_isOk_of_eq_error h),
   fun g lg d _ h =>
     (logarithmic_buy_token_state g lg d).resolve_right (not_isOk_of_eq_error h),
   fun g lg a _ h =>
     (logarithmic_sell_token_state g lg a).resolve_right (not_isOk_of_eq_error h),
   fun fe fl sg d _ h =>
     (sigmoid_buy_token_state fe fl sg d).resolve_right (not_isOk_of_eq_error h),
   fun fe fl sg a _ h =>
     (sigmoid_sell_token_state fe fl sg a).resolve_right (not_isOk_of_eq_error h)⟩

/-- Witness for C2: a rejected Bancor buy (amount `0`) and a rejected Linear
sell (amount above supply) leave the concrete states untouched. -/
theorem error_leaves_state_unchanged_witness :
    (Bancor.buy_token ⟨fpOfInt 1, fpOfInt 1, fpOfInt 1⟩ 0).1
        = .error .invalidInput ∧
    (Bancor.buy_token ⟨fpOfInt 1, fpOfInt 1, fpOfInt 1⟩ 0).2
        = ⟨fpOfInt 1, fpOfInt 1, fpOfInt 1⟩ ∧
    (Linear.sell_token ⟨fpOfInt 1, fpOfInt 1⟩ (fpOfInt 2)).1
        = .error .invalidInput ∧
    (Linear.sell_token ⟨fpOfInt 1, fpOfInt 1⟩ (fpOfInt 2)).2
        = ⟨fpOfInt 1, fpOfInt 1⟩ :=
  ⟨by decide,
   error_leaves_state_unchanged.1 ⟨fpOfInt 1, fpOfInt 1, fpOfInt 1⟩ 0
     .invalidInput (by decide),
   by decide,
   error_leaves_state_unchanged.2.2.2.1 ⟨fpOfInt 1, fpOfInt 1⟩ (fpOfInt 2)
     .invalidInput (by decide)⟩


/-! ## C8: get_price at zero supply -/

/-- C8: `get_price` never mutates the curve (it is embedded as a pure
function of the state, mirroring its `&self` receiver, which cannot write any
field), and at `token_supply = 0` it returns `0` for the Bancor and Linear
curves. -/
theorem get_price_zero_supply :
    (∀ b : Bancor, b.token_supply = 0 → Bancor.get_price b = .ok 0) ∧
    (∀ l : Linear, l.token_supply = 0 → Linear.get_price l = .ok 0) := by
  constructor
  · intro b hb
    unfold Bancor.get_price
    rw [if_pos hb]
  · intro l hl
    unfold Linear.get_price
    rw [hl]
    simp [fpMul]

/-- Witness for C8: the zero-supply Bancor and Linear states price at `0`. -/
theorem get_price_zero_supply_witness :
    Bancor.get_price ⟨0, 0, fpOfInt 1⟩ = .ok 0 ∧
    Linear.get_price ⟨fpOfInt 1, 0⟩ = .ok 0 :=
  ⟨get_price_zero_supply.1 ⟨0, 0, fpOfInt 1⟩ rfl,
   get_price_zero_supply.2 ⟨fpOfInt 1, 0⟩ rfl⟩

/-! ## C9: constructors always start at zero supply -/

/-- C9: every successful constructor of the Linear, Exponential, Logarithmic
and Sigmoid curves returns an instance whose `token_supply` is exactly `0`;
none of these constructors accepts an initial supply. -/
theorem constructors_zero_supply :
    (∀ k l, Linear.new k = .ok l → l.token_supply = 0) ∧
    (∀ c n e, Exponential.new c n = .ok e → e.token_supply = 0) ∧
    (∀ c k lg, Logarithmic.new c k = .ok lg → lg.token_supply = 0) ∧
    (∀ m k md sg, Sigmoid.new m k md = .ok sg → sg.token_supply = 0) := by
  refine ⟨?_, ?_, ?_, ?_⟩
  · intro k l h
    unfold Linear.new at h
    split at h
    · exact absurd h (by simp)
    · injection h with h
      subst h
      rfl
  · intro c n e h
    unfold Exponential.new at h
    split at h
    · exact absurd h (by simp)
    · injection h with h
      subst h
      rfl
  · intro c k lg h
    unfold Logarithmic.new at h
    split at h
    · exact absurd h (by simp)
    · injection h with h
      subst h
      rfl
  · intro m k md sg h
    unfold Sigmoid.new at h
    split at h
    · exact absurd h (by simp)
    · injection h with h
      subst h
      rfl

/-- Witness for C9: concrete successful constructions of all four variants,
each yielding supply `0`. -/
theorem constructors_zero_supply_witness :
    Linear.new (fpOfInt 1) = .ok ⟨fpOfInt 1, 0⟩ ∧
    (⟨fpOfInt 1, 0⟩ : Linear).token_supply = 0 ∧
    Exponential.new (fpOfInt 2) (fpOfInt 1) = .ok ⟨fpOfInt 2, fpOfInt 1, 0⟩ ∧
    (⟨fpOfInt 2, fpOfInt 1, 0⟩ : Exponential).token_supply = 0 ∧
    Logarithmic.new (fpOfInt 1) (fpOfInt 1) = .ok ⟨fpOfInt 1, fpOfInt 1, 0⟩ ∧
    (⟨fpOfInt 1, fpOfInt 1, 0⟩ : Logarithmic).token_supply = 0 ∧
    Sigmoid.new (fpOfInt 100) (fpOfInt 1) (fpOfInt 50)
      = .ok ⟨fpOfInt 100, fpOfInt 1, fpOfInt 50, 0⟩ ∧
    (⟨fpOfInt 100, fpOfInt 1, fpOfInt 50, 0⟩ : Sigmoid).token_supply = 0 :=
  ⟨by decide, constructors_zero_supply.1 (fpOfInt 1) _ (by decide),
   by decide, constructors_zero_supply.2.1 (fpOfInt 2) (fpOfInt 1) _ (by decide),
   by decide, constructors_zero_supply.2.2.1 (fpOfInt 1) (fpOfInt 1) _ (by decide),
   by decide, constructors_zero_supply.2.2.2 (fpOfInt 100) (fpOfInt 1) (fpOfInt 50) _ (by decide)⟩

/-! ## C10: Bancor zero-price guard -/

/-- C10: if the Bancor spot price computes to `0` while `token_supply` is
nonzero, a positive-amount `buy_token` returns a calculation error with the
state untouched; the division `reserve_amount / price` is in the untaken
branch and is never reached, so `buy_token` never divides by a zero price. -/
theorem bancor_buy_zero_price_guard (b : Bancor) (d : Int)
    (hd : 0 < d) (hs : b.token_supply ≠ 0) (hp : Bancor.get_price b = .ok 0) :
    Bancor.buy_token b d = (.error .calculationError, b) := by
  unfold Bancor.buy_token
  rw [hp]
  dsimp only
  rw [if_neg (by omega), if_pos ⟨rfl, hs⟩]

/-- Witness for C10: a state with supply `2^62` (raw `2^126`), reserve raw `1`
and weight `1` computes price `0`, and a buy of `1` is rejected without any
state change. -/
theorem bancor_buy_zero_price_guard_witness :
    (0 : Int) < fpOfInt 1 ∧
    (⟨1, 85070591730234615865843651857942052864, fpOfInt 1⟩ : Bancor).token_supply ≠ 0 ∧
    Bancor.get_price ⟨1, 85070591730234615865843651857942052864, fpOfInt 1⟩ = .ok 0 ∧
    Bancor.buy_token ⟨1, 85070591730234615865843651857942052864, fpOfInt 1⟩ (fpOfInt 1)
      = (.error .calculationError, ⟨1, 85070591730234615865843651857942052864, fpOfInt 1⟩) :=
  ⟨by decide, by decide, by decide,
   bancor_buy_zero_price_guard ⟨1, 85070591730234615865843651857942052864, fpOfInt 1⟩
     (fpOfInt 1) (by decide) (by decide) (by decide)⟩

/-! ## C5: Bancor issuance formula -/

/-- C5: a successful `Bancor::buy_token` with reserve amount `d` issues
`d / 0.0001` tokens (with `0.0001` the stored `I64F64` image of the `f64`
constant) when the pre-buy supply is `0`, and `d / P(S)` tokens otherwise,
where `P(S)` is the pre-buy spot price; the reserve increases by `d` and the
supply by the issued tokens. -/
theorem bancor_buy_issuance (b : Bancor) (d t : Int) (b' : Bancor) (p : Int)
    (hp : Bancor.get_price b = .ok p)
    (h : Bancor.buy_token b d = (.ok t, b')) :
    t = (if b.token_supply = 0 then fpDiv d initialPriceConst else fpDiv d p) ∧
    b'.reserve_balance = b.reserve_balance + d ∧
    b'.token_supply = b.token_supply + t := by
  obtain ⟨hd, hg, ht, hb'⟩ := bancor_buy_token_ok h
  rw [Bancor.get_price_eq] at hp
  injection hp with hp
  subst hb'
  subst hp
  exact ⟨ht, rfl, rfl⟩

/-- Witness for C5: buying reserve `1` at the zero-supply state issues
`1 / 0.0001-image` tokens (about `10000`). -/
theorem bancor_buy_issuance_witness :
    Bancor.get_price ⟨0, 0, 4611686018427387904⟩ = .ok 0 ∧
    Bancor.buy_token ⟨0, 0, 4611686018427387904⟩ (fpOfInt 1)
      = (.ok (fpDiv (fpOfInt 1) initialPriceConst),
         ⟨fpOfInt 1, fpDiv (fpOfInt 1) initialPriceConst, 4611686018427387904⟩) ∧
    (fpDiv (fpOfInt 1) initialPriceConst
        = (if (⟨0, 0, 4611686018427387904⟩ : Bancor).token_supply = 0
           then fpDiv (fpOfInt 1) initialPriceConst else fpDiv (fpOfInt 1) 0) ∧
      (⟨fpOfInt 1, fpDiv (fpOfInt 1) initialPriceConst, 4611686018427387904⟩ : Bancor).reserve_balance
        = (⟨0, 0, 4611686018427387904⟩ : Bancor).reserve_balance + fpOfInt 1 ∧
      (⟨fpOfInt 1, fpDiv (fpOfInt 1) initialPriceConst, 4611686018427387904⟩ : Bancor).token_supply
        = (⟨0, 0, 4611686018427387904⟩ : Bancor).token_supply
            + fpDiv (fpOfInt 1) initialPriceConst) :=
  ⟨by decide, by decide,
   bancor_buy_issuance ⟨0, 0, 4611686018427387904⟩ (fpOfInt 1)
     (fpDiv (fpOfInt 1) initialPriceConst)
     ⟨fpOfInt 1, fpDiv (fpOfInt 1) initialPriceConst, 4611686018427387904⟩ 0
     (by decide) (by decide)⟩


/-! ## C4: sell boundary behaviour -/

theorem linear_sell_all (l : Linear) (hs : 0 < l.token_supply) :
    ((Linear.sell_token l l.token_supply).1).isOk = true ∧
    (Linear.sell_token l l.token_supply).2.token_supply = 0 := by
  unfold Linear.sell_token
  rw [if_neg (by omega)]
  refine ⟨rfl, ?_⟩
  show l.token_supply - l.token_supply = 0
  omega

theorem bancor_sell_all (b : Bancor) (hs : 0 < b.token_supply) :
    ((Bancor.sell_token b b.token_supply).1).isOk = true ∧
    (Bancor.sell_token b b.token_supply).2.token_supply = 0 := by
  unfold Bancor.sell_token
  rw [Bancor.get_price_eq, if_neg (by omega)]
  dsimp only
  refine ⟨rfl, ?_⟩
  show b.token_supply - b.token_supply = 0
  omega

theorem exponential_sell_all (f : Int → Int → Option Int) (e : Exponential)
    {x y : Int} (hs : 0 < e.token_supply)
    (h1 : Exponential.pow_fixed f e.token_supply (e.exponent + fpOfInt 1) = .ok x)
    (h2 : Exponential.pow_fixed f 0 (e.exponent + fpOfInt 1) = .ok y) :
    ((Exponential.sell_token f e e.token_supply).1).isOk = true ∧
    (Exponential.sell_token f e e.token_supply).2.token_supply = 0 := by
  unfold Exponential.sell_token
  rw [if_neg (by omega)]
  dsimp only
  rw [sub_self, h1, h2]
  exact ⟨rfl, rfl⟩

theorem logarithmic_sell_all (g : Int → Option Int) (lg : Logarithmic)
    {u v : Int} (hs : 0 < lg.token_supply) (hk : 0 < lg.constant)
    (h1 : Logarithmic.ln_fixed g (lg.token_supply + lg.constant) = .ok u)
    (h2 : Logarithmic.ln_fixed g lg.constant = .ok v) :
    ((Logarithmic.sell_token g lg lg.token_supply).1).isOk = true ∧
    (Logarithmic.sell_token g lg lg.token_supply).2.token_supply = 0 := by
  unfold Logarithmic.sell_token
  rw [if_neg (by omega)]
  dsimp only
  rw [sub_self, zero_add, if_neg (by omega), h1, h2]
  exact ⟨rfl, rfl⟩

theorem sigmoid_sell_all (fe fl : Int → Option Int) (sg : Sigmoid)
    {a b u v : Int} (hs : 0 < sg.token_supply)
    (h1 : Sigmoid.exp_fixed fe
      (fpMul sg.steepness (sg.token_supply - sg.midpoint)) = .ok a)
    (h2 : Sigmoid.exp_fixed fe (fpMul sg.steepness (-sg.midpoint)) = .ok b)
    (h3 : Sigmoid.ln_fixed fl (fpOfInt 1 + a) = .ok u)
    (h4 : Sigmoid.ln_fixed fl (fpOfInt 1 + b) = .ok v) :
    ((Sigmoid.sell_token fe fl sg sg.token_supply).1).isOk = true ∧
    (Sigmoid.sell_token fe fl sg sg.token_supply).2.token_supply = 0 := by
  unfold Sigmoid.sell_token
  rw [if_neg (by omega)]
  dsimp only
  rw [sub_self, zero_sub, h1, h2]
  dsimp only
  rw [h3, h4]
  exact ⟨rfl, rfl⟩

/-- C4: for every variant, `sell_token` of exactly the (positive) current
supply succeeds — provided, for the transcendental curves, that the
transcendental evaluations occurring in the call succeed — and drives
`token_supply` to exactly `0`; and `sell_token` of any amount that is
non-positive or exceeds the supply fails with an invalid-input error. -/
theorem sell_boundary :
    (∀ l : Linear, 0 < l.token_supply →
      ((Linear.sell_token l l.token_supply).1).isOk = true ∧
      (Linear.sell_token l l.token_supply).2.token_supply = 0) ∧
    (∀ b : Bancor, 0 < b.token_supply →
      ((Bancor.sell_token b b.token_supply).1).isOk = true ∧
      (Bancor.sell_token b b.token_supply).2.token_supply = 0) ∧
    (∀ f (e : Exponential) x y, 0 < e.token_supply →
      Exponential.pow_fixed f e.token_supply (e.exponent + fpOfInt 1) = .ok x →
      Exponential.pow_fixed f 0 (e.exponent + fpOfInt 1) = .ok y →
      ((Exponential.sell_token f e e.token_supply).1).isOk = true ∧
      (Exponential.sell_token f e e.token_supply).2.token_supply = 0) ∧
    (∀ g (lg : Logarithmic) u v, 0 < lg.token_supply → 0 < lg.constant →
      Logarithmic.ln_fixed g (lg.token_supply + lg.constant) = .ok u →
      Logarithmic.ln_fixed g lg.constant = .ok v →
      ((Logarithmic.sell_token g lg lg.token_supply).1).isOk = true ∧
      (Logarithmic.sell_token g lg lg.token_supply).2.token_supply = 0) ∧
    (∀ fe fl (sg : Sigmoid) a b u v, 0 < sg.token_supply →
      Sigmoid.exp_fixed fe
        (fpMul sg.steepness (sg.token_supply - sg.midpoint)) = .ok a →
      Sigmoid.exp_fixed fe (fpMul sg.steepness (-sg.midpoint)) = .ok b →
      Sigmoid.ln_fixed fl (fpOfInt 1 + a) = .ok u →
      Sigmoid.ln_fixed fl (fpOfInt 1 + b) = .ok v →
      ((Sigmoid.sell_token fe fl sg sg.token_supply).1).isOk = true ∧
      (Sigmoid.sell_token fe fl sg sg.token_supply).2.token_supply = 0) ∧
    (∀ (l : Linear) a, a ≤ 0 ∨ l.token_supply < a →
      (Linear.sell_token l a).1 = .error .invalidInput) ∧
    (∀ (b : Bancor) a, a ≤ 0 ∨ b.token_supply < a →
      (Bancor.sell_token b a).1 = .error .invalidInput) ∧
    (∀ f (e : Exponential) a, a ≤ 0 ∨ e.token_supply < a →
      (Exponential.sell_token f e a).1 = .error .invalidInput) ∧
    (∀ g (lg : Logarithmic) a, a ≤ 0 ∨ lg.token_supply < a →
      (Logarithmic.sell_token g lg a).1 = .error .invalidInput) ∧
    (∀ fe fl (sg : Sigmoid) a, a ≤ 0 ∨ sg.token_supply < a →
      (Sigmoid.sell_token fe fl sg a).1 = .error .invalidInput) := by
  refine ⟨fun l hs => linear_sell_all l hs,
    fun b hs => bancor_sell_all b hs,
    fun f e x y hs h1 h2 => exponential_sell_all f e hs h1 h2,
    fun g lg u v hs hk h1 h2 => logarithmic_sell_all g lg hs hk h1 h2,
    fun fe fl sg a b u v hs h1 h2 h3 h4 => sigmoid_sell_all fe fl sg hs h1 h2 h3 h4,
    ?_, ?_, ?_, ?_, ?_⟩
  · intro l a h
    unfold Linear.sell_token
    rw [if_pos h]
  · intro b a h
    unfold Bancor.sell_token
    rw [if_pos h]
  · intro f e a h
    unfold Exponential.sell_token
    rw [if_pos h]
  · intro g lg a h
    unfold Logarithmic.sell_token
    rw [if_pos h]
  · intro fe fl sg a h
    unfold Sigmoid.sell_token
    rw [if_pos h]

/-- Witness for C4: a full-supply Linear sell reaching supply `0`, a
full-supply Exponential sell (with a concrete power evaluator) reaching
supply `0`, and a rejected over-supply Linear sell. -/
theorem sell_boundary_witness :
    ((0 : Int) < fpOfInt 1 ∧
      ((Linear.sell_token ⟨fpOfInt 1, fpOfInt 1⟩ (fpOfInt 1)).1).isOk = true ∧
      (Linear.sell_token ⟨fpOfInt 1, fpOfInt 1⟩ (fpOfInt 1)).2.token_supply = 0) ∧
    (Exponential.pow_fixed (fun _ _ => some (fpOfInt 8)) (fpOfInt 1)
        ((⟨fpOfInt 2, fpOfInt 2, fpOfInt 1⟩ : Exponential).exponent + fpOfInt 1)
        = .ok (fpOfInt 8) ∧
      Exponential.pow_fixed (fun _ _ => some (fpOfInt 8)) 0
        ((⟨fpOfInt 2, fpOfInt 2, fpOfInt 1⟩ : Exponential).exponent + fpOfInt 1)
        = .ok (fpOfInt 8) ∧
      ((Exponential.sell_token (fun _ _ => some (fpOfInt 8))
          ⟨fpOfInt 2, fpOfInt 2, fpOfInt 1⟩ (fpOfInt 1)).1).isOk = true ∧
      (Exponential.sell_token (fun _ _ => some (fpOfInt 8))
          ⟨fpOfInt 2, fpOfInt 2, fpOfInt 1⟩ (fpOfInt 1)).2.token_supply = 0) ∧
    ((fpOfInt 2 ≤ 0 ∨ (⟨fpOfInt 1, fpOfInt 1⟩ : Linear).token_supply < fpOfInt 2) ∧
      (Linear.sell_token ⟨fpOfInt 1, fpOfInt 1⟩ (fpOfInt 2)).1 = .error .invalidInput) :=
  ⟨⟨by decide, sell_boundary.1 ⟨fpOfInt 1, fpOfInt 1⟩ (by decide)⟩,
   ⟨by decide, by decide,
     sell_boundary.2.2.1 (fun _ _ => some (fpOfInt 8)) ⟨fpOfInt 2, fpOfInt 2, fpOfInt 1⟩
       (fpOfInt 8) (fpOfInt 8) (by decide) (by decide) (by decide)⟩,
   ⟨by decide,
     sell_boundary.2.2.2.2.2.1 ⟨fpOfInt 1, fpOfInt 1⟩ (fpOfInt 2) (by decide)⟩⟩


/-! ## C3: buy/sell round trips -/

theorem linear_buy_token_ok {l : Linear} {d c : Int} {l' : Linear}
    (h : Linear.buy_token l d = (.ok c, l')) :
    0 < d ∧
    c = fpDiv (fpMul l.slope (fpMul (l.token_supply + d) (l.token_supply + d)))
          (fpOfInt 2)
        - fpDiv (fpMul l.slope (fpMul l.token_supply l.token_supply)) (fpOfInt 2) ∧
    l' = ⟨l.slope, l.token_supply + d⟩ := by
  unfold Linear.buy_token at h
  split at h
  · exact absurd h (by simp)
  · rw [Prod.mk.injEq] at h
    obtain ⟨h1, h2⟩ := h
    injection h1 with h1
    exact ⟨by omega, h1.symm, h2.symm⟩

theorem linear_sell_token_ok {l : Linear} {a r : Int} {l' : Linear}
    (h : Linear.sell_token l a = (.ok r, l')) :
    0 < a ∧ a <= l.token_supply ∧
    r = fpDiv (fpMul l.slope (fpMul l.token_supply l.token_supply)) (fpOfInt 2)
        - fpDiv (fpMul l.slope (fpMul (l.token_supply - a) (l.token_supply - a)))
            (fpOfInt 2) ∧
    l' = ⟨l.slope, l.token_supply - a⟩ := by
  unfold Linear.sell_token at h
  split at h
  · exact absurd h (by simp)
  · rw [Prod.mk.injEq] at h
    obtain ⟨h1, h2⟩ := h
    injection h1 with h1
    exact ⟨by omega, by omega, h1.symm, h2.symm⟩

theorem linear_round_trip {l : Linear} {d c r : Int} {l1 l2 : Linear}
    (hb : Linear.buy_token l d = (.ok c, l1))
    (hs : Linear.sell_token l1 d = (.ok r, l2)) :
    l2 = l ∧ r = c := by
  obtain ⟨hd, hc, hl1⟩ := linear_buy_token_ok hb
  obtain ⟨hd2, hle, hr, hl2⟩ := linear_sell_token_ok hs
  subst hl1
  subst hl2
  dsimp only at hr ⊢
  rw [add_sub_cancel_right] at hr ⊢
  exact ⟨rfl, by rw [hr, hc]⟩

theorem exponential_buy_token_ok {f : Int → Int → Option Int} {e : Exponential}
    {d c : Int} {e' : Exponential}
    (h : Exponential.buy_token f e d = (.ok c, e')) :
    0 < d ∧
    ∃ P Q,
      Exponential.pow_fixed f (e.token_supply + d) (e.exponent + fpOfInt 1) = .ok P ∧
      Exponential.pow_fixed f e.token_supply (e.exponent + fpOfInt 1) = .ok Q ∧
      c = fpMul (fpDiv e.coefficient (e.exponent + fpOfInt 1)) P
          - fpMul (fpDiv e.coefficient (e.exponent + fpOfInt 1)) Q ∧
      e' = ⟨e.coefficient, e.exponent, e.token_supply + d⟩ := by
  unfold Exponential.buy_token at h
  dsimp only at h
  split at h
  · exact absurd h (by simp)
  · split at h
    · exact absurd h (by simp)
    · rename_i P hP
      split at h
      · exact absurd h (by simp)
      · rename_i Q hQ
        rw [Prod.mk.injEq] at h
        obtain ⟨h1, h2⟩ := h
        injection h1 with h1
        exact ⟨by omega, P, Q, hP, hQ, h1.symm, h2.symm⟩

theorem exponential_round_trip {f : Int → Int → Option Int} {e : Exponential}
    {d c r : Int} {e1 e2 : Exponential}
    (hb : Exponential.buy_token f e d = (.ok c, e1))
    (hs : Exponential.sell_token f e1 d = (.ok r, e2)) :
    e2 = e ∧ r = c := by
  obtain ⟨hd, P, Q, hP, hQ, hc, he1⟩ := exponential_buy_token_ok hb
  subst he1
  unfold Exponential.sell_token at hs
  dsimp only at hs
  rw [add_sub_cancel_right, hP, hQ] at hs
  split at hs
  · exact absurd hs (by simp)
  · dsimp only at hs
    rw [Prod.mk.injEq] at hs
    obtain ⟨h1, h2⟩ := hs
    injection h1 with h1
    exact ⟨h2.symm, h1.symm.trans hc.symm⟩

theorem Logarithmic.ln_fixed_ok_pos {g : Int → Option Int} {x u : Int}
    (h : Logarithmic.ln_fixed g x = .ok u) : 0 < x := by
  unfold Logarithmic.ln_fixed at h
  split at h
  · exact absurd h (by simp)
  · omega

theorem logarithmic_buy_token_ok {g : Int → Option Int} {lg : Logarithmic}
    {d c : Int} {lg' : Logarithmic}
    (h : Logarithmic.buy_token g lg d = (.ok c, lg')) :
    0 < d ∧
    ∃ U V,
      Logarithmic.ln_fixed g (lg.token_supply + d + lg.constant) = .ok U ∧
      Logarithmic.ln_fixed g (lg.token_supply + lg.constant) = .ok V ∧
      c = fpMul lg.coefficient
            (fpMul (lg.token_supply + d + lg.constant) U
              - (lg.token_supply + d + lg.constant))
          - fpMul lg.coefficient
            (fpMul (lg.token_supply + lg.constant) V
              - (lg.token_supply + lg.constant)) ∧
      lg' = ⟨lg.coefficient, lg.constant, lg.token_supply + d⟩ := by
  unfold Logarithmic.buy_token at h
  dsimp only at h
  split at h
  · exact absurd h (by simp)
  · split at h
    · exact absurd h (by simp)
    · rename_i U hU
      split at h
      · exact absurd h (by simp)
      · rename_i V hV
        rw [Prod.mk.injEq] at h
        obtain ⟨h1, h2⟩ := h
        injection h1 with h1
        exact ⟨by omega, U, V, hU, hV, h1.symm, h2.symm⟩

theorem logarithmic_round_trip {g : Int → Option Int} {lg : Logarithmic}
    {d c r : Int} {lg1 lg2 : Logarithmic}
    (hb : Logarithmic.buy_token g lg d = (.ok c, lg1))
    (hs : Logarithmic.sell_token g lg1 d = (.ok r, lg2)) :
    lg2 = lg ∧ r = c := by
  obtain ⟨hd, U, V, hU, hV, hc, hlg1⟩ := logarithmic_buy_token_ok hb
  subst hlg1
  unfold Logarithmic.sell_token at hs
  dsimp only at hs
  rw [add_sub_cancel_right] at hs
  split at hs
  · exact absurd hs (by simp)
  · rw [if_neg (by have := Logarithmic.ln_fixed_ok_pos hV; omega)] at hs
    rw [hU, hV] at hs
    dsimp only at hs
    rw [Prod.mk.injEq] at hs
    obtain ⟨h1, h2⟩ := hs
    injection h1 with h1
    exact ⟨h2.symm, h1.symm.trans hc.symm⟩

theorem sigmoid_buy_token_ok {fe fl : Int → Option Int} {sg : Sigmoid}
    {d c : Int} {sg' : Sigmoid}
    (h : Sigmoid.buy_token fe fl sg d = (.ok c, sg')) :
    0 < d ∧
    ∃ A B U V,
      Sigmoid.exp_fixed fe
        (fpMul sg.steepness (sg.token_supply + d - sg.midpoint)) = .ok A ∧
      Sigmoid.exp_fixed fe
        (fpMul sg.steepness (sg.token_supply - sg.midpoint)) = .ok B ∧
      Sigmoid.ln_fixed fl (fpOfInt 1 + A) = .ok U ∧
      Sigmoid.ln_fixed fl (fpOfInt 1 + B) = .ok V ∧
      c = fpMul (fpDiv sg.max_price sg.steepness) U
          - fpMul (fpDiv sg.max_price sg.steepness) V ∧
      sg' = ⟨sg.max_price, sg.steepness, sg.midpoint, sg.token_supply + d⟩ := by
  unfold Sigmoid.buy_token at h
  dsimp only at h
  split at h
  · exact absurd h (by simp)
  · split at h
    · exact absurd h (by simp)
    · rename_i A hA
      split at h
      · exact absurd h (by simp)
      · rename_i B hB
        split at h
        · exact absurd h (by simp)
        · rename_i U hU
          split at h
          · exact absurd h (by simp)
          · rename_i V hV
            rw [Prod.mk.injEq] at h
            obtain ⟨h1, h2⟩ := h
            injection h1 with h1
            exact ⟨by omega, A, B, U, V, hA, hB, hU, hV, h1.symm, h2.symm⟩

theorem sigmoid_round_trip {fe fl : Int → Option Int} {sg : Sigmoid}
    {d c r : Int} {sg1 sg2 : Sigmoid}
    (hb : Sigmoid.buy_token fe fl sg d = (.ok c, sg1))
    (hs : Sigmoid.sell_token fe fl sg1 d = (.ok r, sg2)) :
    sg2 = sg ∧ r = c := by
  obtain ⟨hd, A, B, U, V, hA, hB, hU, hV, hc, hsg1⟩ := sigmoid_buy_token_ok hb
  subst hsg1
  unfold Sigmoid.sell_token at hs
  dsimp only at hs
  rw [add_sub_cancel_right, hA, hB] at hs
  split at hs
  · exact absurd hs (by simp)
  · dsimp only at hs
    rw [hU, hV] at hs
    dsimp only at hs
    rw [Prod.mk.injEq] at hs
    obtain ⟨h1, h2⟩ := hs
    injection h1 with h1
    exact ⟨h2.symm, h1.symm.trans hc.symm⟩

theorem Bancor.round_trip_supply {b : Bancor} {d t r : Int} {b1 b2 : Bancor}
    (hb : Bancor.buy_token b d = (.ok t, b1))
    (hs : Bancor.sell_token b1 t = (.ok r, b2)) :
    b2.token_supply = b.token_supply := by
  obtain ⟨hd, hg, ht, hb1⟩ := bancor_buy_token_ok hb
  obtain ⟨ht2, hle, hr, hb2⟩ := bancor_sell_token_ok hs
  subst hb1
  subst hb2
  show b.token_supply + t - t = b.token_supply
  omega


/-- C3 counterexample: for the Bancor curve with `new(1, 1, 0.25)` (weight raw
`2^62`), `buy_token(1)` issues `0.25` tokens for reserve `1`; immediately
selling those issued tokens back succeeds and returns about `1.6` — strictly
more than the `1` paid in — and leaves the reserve near `0.4` instead of `1`,
far beyond rounding tolerance; and the literal reading `sell_token(1)` (same
argument as the buy) leaves supply `0.25` instead of the pre-buy `1`.  So the
round-trip property fails for Bancor under either reading. -/
theorem round_trip_counterexample :
    Bancor.new 1 1 4611686018427387904
      = .ok ⟨fpOfInt 1, fpOfInt 1, 4611686018427387904⟩ ∧
    Bancor.buy_token ⟨fpOfInt 1, fpOfInt 1, 4611686018427387904⟩ (fpOfInt 1)
      = (.ok 4611686018427387904,
         ⟨fpOfInt 2, 23058430092136939520, 4611686018427387904⟩) ∧
    (Bancor.sell_token ⟨fpOfInt 2, 23058430092136939520, 4611686018427387904⟩
        4611686018427387904).1 = .ok 29514790517935282585 ∧
    fpOfInt 1 < 29514790517935282585 ∧
    (Bancor.sell_token ⟨fpOfInt 2, 23058430092136939520, 4611686018427387904⟩
        4611686018427387904).2.reserve_balance = 7378697629483820647 ∧
    2 * 7378697629483820647 < fpOfInt 1 ∧
    (Bancor.sell_token ⟨fpOfInt 2, 23058430092136939520, 4611686018427387904⟩
        (fpOfInt 1)).2.token_supply = 4611686018427387904 ∧
    (4611686018427387904 : Int) ≠ fpOfInt 1 :=
  ⟨by decide, by decide, by decide, by decide, by decide, by decide, by decide,
   by decide⟩

/-- C3 (amended): for the Linear, Exponential, Logarithmic and Sigmoid curves
a successful `buy(d)` immediately followed by a successful `sell(d)` restores
the state exactly and refunds exactly the buy cost (the sell evaluates the
same fixed-point expressions as the buy).  For Bancor, selling exactly the
tokens issued by the buy restores `token_supply` exactly, but the reserve is
not restored and the refund can exceed the reserve paid in (see the
counterexample). -/
theorem round_trip_amended :
    (∀ (l : Linear) d c r l1 l2, Linear.buy_token l d = (.ok c, l1) →
      Linear.sell_token l1 d = (.ok r, l2) → l2 = l ∧ r = c) ∧
    (∀ f (e : Exponential) d c r e1 e2,
      Exponential.buy_token f e d = (.ok c, e1) →
      Exponential.sell_token f e1 d = (.ok r, e2) → e2 = e ∧ r = c) ∧
    (∀ g (lg : Logarithmic) d c r lg1 lg2,
      Logarithmic.buy_token g lg d = (.ok c, lg1) →
      Logarithmic.sell_token g lg1 d = (.ok r, lg2) → lg2 = lg ∧ r = c) ∧
    (∀ fe fl (sg : Sigmoid) d c r sg1 sg2,
      Sigmoid.buy_token fe fl sg d = (.ok c, sg1) →
      Sigmoid.sell_token fe fl sg1 d = (.ok r, sg2) → sg2 = sg ∧ r = c) ∧
    (∀ (b : Bancor) d t r b1 b2, Bancor.buy_token b d = (.ok t, b1) →
      Bancor.sell_token b1 t = (.ok r, b2) → b2.token_supply = b.token_supply) :=
  ⟨fun _ _ _ _ _ _ hb hs => linear_round_trip hb hs,
   fun _ _ _ _ _ _ _ hb hs => exponential_round_trip hb hs,
   fun _ _ _ _ _ _ _ hb hs => logarithmic_round_trip hb hs,
   fun _ _ _ _ _ _ _ _ hb hs => sigmoid_round_trip hb hs,
   fun _ _ _ _ _ _ hb hs => Bancor.round_trip_supply hb hs⟩

/-- Witness for C3: a concrete Linear buy of `1` at supply `0` costing `0.5`,
whose immediate sell refunds exactly `0.5` and restores the state. -/
theorem round_trip_amended_witness :
    Linear.buy_token ⟨fpOfInt 1, 0⟩ (fpOfInt 1)
      = (.ok 9223372036854775808, ⟨fpOfInt 1, fpOfInt 1⟩) ∧
    Linear.sell_token ⟨fpOfInt 1, fpOfInt 1⟩ (fpOfInt 1)
      = (.ok 9223372036854775808, ⟨fpOfInt 1, 0⟩) ∧
    ((⟨fpOfInt 1, 0⟩ : Linear) = ⟨fpOfInt 1, 0⟩ ∧
      (9223372036854775808 : Int) = 9223372036854775808) :=
  ⟨by decide, by decide,
   round_trip_amended.1 ⟨fpOfInt 1, 0⟩ (fpOfInt 1) 9223372036854775808
     9223372036854775808 ⟨fpOfInt 1, fpOfInt 1⟩ ⟨fpOfInt 1, 0⟩
     (by decide) (by decide)⟩


/-! ## C6: Linear integral formulas -/

/-- Modelled from the spec: the Linear buy cost formula
`k*((S+d)^2 - S^2)/2` evaluated as written — square both supplies, subtract,
multiply by the slope, halve — with each fixed-point multiplication and
division truncating.  `Linear::buy_token` instead evaluates the distributed
form `k*(S+d)^2/2 - k*S^2/2`, which rounds differently. -/
def Linear.specCost (k s d : Int) : Int :=
  fpDiv (fpMul k (fpMul (s + d) (s + d) - fpMul s s)) (fpOfInt 2)

/-- C6 counterexample: for the constructible Linear curve with slope raw `1`
(`2^-64`, from `Linear::new` on that `f64`) at the reachable supply `1`,
`buy_token(1)` returns raw cost `2`, but the fixed-point evaluation of the
spec formula `k*((S+d)^2 - S^2)/2` gives raw `1` (and the exact rational
value is `1.5*2^-64`): the returned cost does not equal the claimed formula
evaluated in the fixed-point arithmetic. -/
theorem linear_cost_counterexample :
    Linear.new 1 = .ok ⟨1, 0⟩ ∧
    Linear.buy_token ⟨1, 0⟩ (fpOfInt 1) = (.ok 0, ⟨1, fpOfInt 1⟩) ∧
    (Linear.buy_token ⟨1, fpOfInt 1⟩ (fpOfInt 1)).1 = .ok 2 ∧
    Linear.specCost 1 (fpOfInt 1) (fpOfInt 1) = 1 ∧
    (2 : Int) ≠ 1 :=
  ⟨by decide, by decide, by decide, by decide, by decide⟩

/-- C6 (amended): a successful Linear buy returns exactly the distributed
fixed-point evaluation `k*(S+d)^2/2 - k*S^2/2` (each multiplication and
division truncated individually) and a successful sell returns
`k*S^2/2 - k*(S-d)^2/2`; whenever all the intermediate roundings are exact,
the buy cost coincides with the fixed-point evaluation of the spec formula
`k*((S+d)^2 - S^2)/2` (in exact arithmetic the two forms are always equal,
but their truncated evaluations can differ in the last place). -/
theorem linear_cost_formulas :
    (∀ (l : Linear) d c l', Linear.buy_token l d = (.ok c, l') →
      c = fpDiv (fpMul l.slope (fpMul (l.token_supply + d) (l.token_supply + d)))
            (fpOfInt 2)
          - fpDiv (fpMul l.slope (fpMul l.token_supply l.token_supply))
              (fpOfInt 2) ∧
      l' = ⟨l.slope, l.token_supply + d⟩) ∧
    (∀ (l : Linear) a r l', Linear.sell_token l a = (.ok r, l') →
      r = fpDiv (fpMul l.slope (fpMul l.token_supply l.token_supply)) (fpOfInt 2)
          - fpDiv (fpMul l.slope (fpMul (l.token_supply - a) (l.token_supply - a)))
              (fpOfInt 2) ∧
      l' = ⟨l.slope, l.token_supply - a⟩) ∧
    (∀ k s d, (k * fpMul (s + d) (s + d)) % fpScale = 0 →
      (k * fpMul s s) % fpScale = 0 →
      fpMul k (fpMul (s + d) (s + d)) % 2 = 0 →
      fpMul k (fpMul s s) % 2 = 0 →
      fpDiv (fpMul k (fpMul (s + d) (s + d))) (fpOfInt 2)
        - fpDiv (fpMul k (fpMul s s)) (fpOfInt 2) = Linear.specCost k s d) := by
  refine ⟨fun l d c l' h => (linear_buy_token_ok h).2,
    fun l a r l' h => ⟨(linear_sell_token_ok h).2.2.1, (linear_sell_token_ok h).2.2.2⟩,
    ?_⟩
  intro k s d h1 h2 h3 h4
  unfold Linear.specCost
  set A := fpMul (s + d) (s + d) with hA
  set B := fpMul s s with hB
  obtain ⟨u, hu⟩ := Int.dvd_of_emod_eq_zero h1
  obtain ⟨v, hv⟩ := Int.dvd_of_emod_eq_zero h2
  simp only [fpMul, fpDiv, fpOfInt] at h3 h4 ⊢
  rw [mul_sub, hu, hv, ← mul_sub]
  rw [Int.mul_fdiv_cancel_left u (by norm_num [fpScale]),
    Int.mul_fdiv_cancel_left v (by norm_num [fpScale]),
    Int.mul_fdiv_cancel_left (u - v) (by norm_num [fpScale])]
  rw [hu, Int.mul_fdiv_cancel_left u (by norm_num [fpScale])] at h3
  rw [hv, Int.mul_fdiv_cancel_left v (by norm_num [fpScale])] at h4
  rw [Int.fdiv_eq_ediv _ (by norm_num [fpScale]),
    Int.fdiv_eq_ediv _ (by norm_num [fpScale]),
    Int.fdiv_eq_ediv _ (by norm_num [fpScale])]
  rw [Int.mul_ediv_mul_of_pos_left u 2 fpScale_pos,
    Int.mul_ediv_mul_of_pos_left v 2 fpScale_pos,
    Int.mul_ediv_mul_of_pos_left (u - v) 2 fpScale_pos]
  omega

/-- Witness for C6: a buy of `2` at supply `2` with slope `1`, where every
intermediate rounding is exact, so the distributed cost, the spec-formula
cost, and the exact value `6` all agree. -/
theorem linear_cost_formulas_witness :
    (Linear.buy_token ⟨fpOfInt 1, fpOfInt 2⟩ (fpOfInt 2)
        = (.ok (fpOfInt 6), ⟨fpOfInt 1, fpOfInt 4⟩) ∧
      (fpOfInt 6
          = fpDiv (fpMul (fpOfInt 1) (fpMul (fpOfInt 2 + fpOfInt 2) (fpOfInt 2 + fpOfInt 2)))
              (fpOfInt 2)
            - fpDiv (fpMul (fpOfInt 1) (fpMul (fpOfInt 2) (fpOfInt 2))) (fpOfInt 2) ∧
        (⟨fpOfInt 1, fpOfInt 4⟩ : Linear) = ⟨fpOfInt 1, fpOfInt 2 + fpOfInt 2⟩)) ∧
    ((fpOfInt 1 * fpMul (fpOfInt 2 + fpOfInt 2) (fpOfInt 2 + fpOfInt 2)) % fpScale = 0 ∧
      (fpOfInt 1 * fpMul (fpOfInt 2) (fpOfInt 2)) % fpScale = 0 ∧
      fpMul (fpOfInt 1) (fpMul (fpOfInt 2 + fpOfInt 2) (fpOfInt 2 + fpOfInt 2)) % 2 = 0 ∧
      fpMul (fpOfInt 1) (fpMul (fpOfInt 2) (fpOfInt 2)) % 2 = 0 ∧
      fpDiv (fpMul (fpOfInt 1) (fpMul (fpOfInt 2 + fpOfInt 2) (fpOfInt 2 + fpOfInt 2)))
          (fpOfInt 2)
        - fpDiv (fpMul (fpOfInt 1) (fpMul (fpOfInt 2) (fpOfInt 2))) (fpOfInt 2)
        = Linear.specCost (fpOfInt 1) (fpOfInt 2) (fpOfInt 2)) :=
  ⟨⟨by decide,
    linear_cost_formulas.1 ⟨fpOfInt 1, fpOfInt 2⟩ (fpOfInt 2) (fpOfInt 6)
      ⟨fpOfInt 1, fpOfInt 4⟩ (by decide)⟩,
   ⟨by decide, by decide, by decide, by decide,
    linear_cost_formulas.2.2 (fpOfInt 1) (fpOfInt 2) (fpOfInt 2)
      (by decide) (by decide) (by decide) (by decide)⟩⟩

/-! ## C7: the power helper used by the Exponential curve -/

/-- C7 counterexample: the power helper the Exponential curve actually uses
(`Exponential::pow_fixed`) rejects a negative base even when the exponent is
integral and the evaluated result is finite: with an evaluator returning the
finite value `1`, `pow_fixed(-1, 2)` is a calculation error, where the claim
predicts success (the exponent `2` is integral: its raw value is a multiple
of `2^64`). -/
theorem exponential_pow_counterexample :
    Exponential.pow_fixed (fun _ _ => some (fpOfInt 1)) (-(fpOfInt 1)) (fpOfInt 2)
      = .error .calculationError ∧
    (fun (_ _ : Int) => some (fpOfInt 1)) (-(fpOfInt 1)) (fpOfInt 2)
      = some (fpOfInt 1) ∧
    fpOfInt 2 % fpScale = 0 :=
  ⟨by decide, rfl, by decide⟩

/-- C7 (amended): the power helper used by the Exponential curve's price, buy
and sell fails with a calculation error exactly when its base is negative —
regardless of whether the exponent is integral — or the evaluated result is
non-finite (`none` in the abstracted pipeline); it never succeeds on any
negative base.  (The separate `helpers.rs::pow_fixed`, which does test the
exponent for integrality, is not referenced by any curve or by `lib.rs`.) -/
theorem exponential_pow_fails_iff (f : Int → Int → Option Int)
    (base exponent : Int) :
    Exponential.pow_fixed f base exponent = .error .calculationError
      ↔ (base < 0 ∨ f base exponent = none) := by
  unfold Exponential.pow_fixed
  split
  · rename_i hbase
    constructor
    · intro _
      exact Or.inl hbase
    · intro _
      rfl
  · rename_i hbase
    split
    · rename_i heq
      constructor
      · intro _
        exact Or.inr heq
      · intro _
        rfl
    · rename_i rr heq
      constructor
      · intro hcontra
        exact absurd hcontra (by simp)
      · intro hor
        rcases hor with hb | hn
        · exact absurd hb hbase
        · rw [heq] at hn
          exact absurd hn (by simp)

end BondingCurves
